import Mathlib

/-
Verification of the rsocket-py error taxonomy and first-frame validation
(`rsocket/errors.py`), together with spec-level models of the request-stream
backpressure contract and the request-response cancellation contract that the
behavioral tests (`tests/rsocket/test_rsocket.py`) exercise.
-/

namespace RSocket

/-- Modelled from the spec: the protocol error codes come from `rsocket/frame.py`
(class `ErrorCode`), which is not among the sources; the spec fixes the
connection-scope code set {INVALID_SETUP, UNSUPPORTED_SETUP, REJECTED_SETUP,
CONNECTION_ERROR} and the stream-scope code set {APPLICATION_ERROR, REJECTED,
CANCELED, INVALID} as sets of distinct named codes.  Numeric values follow the
RSocket protocol; `errors.py` only compares codes for equality, so all that
matters below is their distinctness. -/
def ErrorCode.INVALID_SETUP : Nat := 0x001

def ErrorCode.UNSUPPORTED_SETUP : Nat := 0x002

def ErrorCode.REJECTED_SETUP : Nat := 0x003

def ErrorCode.CONNECTION_ERROR : Nat := 0x101

def ErrorCode.APPLICATION_ERROR : Nat := 0x201

def ErrorCode.REJECTED : Nat := 0x202

def ErrorCode.CANCELED : Nat := 0x203

def ErrorCode.INVALID : Nat := 0x204

/-- The connection-scope code set of `errors.py` (the codes mapped at stream id 0). -/
def connectionCodes : List Nat :=
  [ErrorCode.INVALID_SETUP, ErrorCode.UNSUPPORTED_SETUP,
   ErrorCode.REJECTED_SETUP, ErrorCode.CONNECTION_ERROR]

/-- The stream-scope code set of `errors.py` (the codes mapped at nonzero stream ids). -/
def streamCodes : List Nat :=
  [ErrorCode.APPLICATION_ERROR, ErrorCode.REJECTED,
   ErrorCode.CANCELED, ErrorCode.INVALID]

/-- The Python class of a `CustomException` value: `errors.py` declares one
subclass of `CustomException` per taxonomy member. -/
inductive ExcKind where
  | invalidSetup
  | rejectedSetup
  | unsupportedSetup
  | connectionError
  | illegalArgument
  | application
  | rejected
  | connection
  | canceled
  | invalid
  deriving DecidableEq, Repr

/-- `CustomException(err_code, err_msg)` from `errors.py`, with `kind` recording
which subclass the instance belongs to. -/
structure CustomException where
  kind : ExcKind
  err_code : Nat
  err_msg : String
  deriving DecidableEq, Repr

/-- `ERROR_INVALID_STREAM` from `errors.py`. -/
def ERROR_INVALID_STREAM : String := "SETUP or RESUME is not a frame with stream id of 0"

/-- `ERROR_INVALID_FIRST_FRAME` from `errors.py`. -/
def ERROR_INVALID_FIRST_FRAME : String := "first frame must be setup or resume"

/-- `ERROR_UNSUPPORTED_RESUME` from `errors.py` (defined there, used by no code in
`errors.py` itself). -/
def ERROR_UNSUPPORTED_RESUME : String := "unsupported resume yet"

/-- The applied form of the format string
`"Invalid Error frame in Stream ID 0: \x7b\x7d, \x27\x7b\x7d\x27".format(stream_id, err_msg)`
used by both `IllegalArgumentException` branches of `RuntimeExceptions.handle`. -/
def illegalArgumentMessage (stream_id : Nat) (err_msg : String) : String :=
  "Invalid Error frame in Stream ID 0: " ++ toString stream_id ++ ", \x27" ++ err_msg ++ "\x27"

/-- `RuntimeExceptions.handle` from `errors.py`, lines 55-81: dispatch on stream
scope (stream id 0 vs nonzero) and then on the error code, constructing (never
raising) the matching exception value. -/
def RuntimeExceptions.handle (stream_id : Nat) (err_code : Nat) (err_msg : String) :
    CustomException :=
  if stream_id == 0 then
    if err_code == ErrorCode.INVALID_SETUP then
      ⟨.invalidSetup, err_code, err_msg⟩
    else if err_code == ErrorCode.UNSUPPORTED_SETUP then
      ⟨.unsupportedSetup, err_code, err_msg⟩
    else if err_code == ErrorCode.REJECTED_SETUP then
      ⟨.rejectedSetup, err_code, err_msg⟩
    else if err_code == ErrorCode.CONNECTION_ERROR then
      ⟨.connectionError, err_code, err_msg⟩
    else
      ⟨.illegalArgument, err_code, illegalArgumentMessage stream_id err_msg⟩
  else
    if err_code == ErrorCode.APPLICATION_ERROR then
      ⟨.application, err_code, err_msg⟩
    else if err_code == ErrorCode.REJECTED then
      ⟨.rejected, err_code, err_msg⟩
    else if err_code == ErrorCode.CANCELED then
      ⟨.canceled, err_code, err_msg⟩
    else if err_code == ErrorCode.INVALID then
      ⟨.invalid, err_code, err_msg⟩
    else
      ⟨.illegalArgument, err_code, illegalArgumentMessage stream_id err_msg⟩

/-- Modelled from the spec: frame records are produced by the external frame
codec (`rsocket/frame.py`, not among the sources); the spec tags each decoded
frame with a type from {SETUP, RESUME, REQUEST_FNF, REQUEST_RESPONSE,
REQUEST_STREAM, REQUEST_CHANNEL, REQUEST_N, CANCEL, PAYLOAD, ERROR, KEEPALIVE}. -/
inductive FrameType where
  | setup
  | resume
  | requestFnf
  | requestResponse
  | requestStream
  | requestChannel
  | requestN
  | cancel
  | payload
  | error
  | keepalive
  deriving DecidableEq, Repr

/-- A decoded frame as `verify_first_frame` sees it: its stream id and its type
tag.  `isinstance(frame, SetupFrame)` in the Python source corresponds to
`frameType = .setup`. -/
structure Frame where
  stream_id : Nat
  frameType : FrameType
  deriving DecidableEq, Repr

/-- `verify_first_frame` from `errors.py`, lines 84-90: raise `InvalidSetupException`
when the stream id is nonzero, then raise `InvalidSetupException` when the frame
is not a setup frame (the resume alternative at line 88 is commented out in the
source), else return normally. -/
def verify_first_frame (frame : Frame) : Except CustomException Unit :=
  if ¬ (frame.stream_id == 0) then
    .error ⟨.invalidSetup, ErrorCode.INVALID_SETUP, ERROR_INVALID_STREAM⟩
  else if ¬ (frame.frameType == FrameType.setup) then
    .error ⟨.invalidSetup, ErrorCode.INVALID_SETUP, ERROR_INVALID_FIRST_FRAME⟩
  else
    .ok ()

/-- Modelled from the spec: the request-stream backpressure state machine
(`rsocket/rsocket.py` and the rxbp observer plumbing are not among the sources;
only the test `test_request_stream_rxbp` is).  Per the spec, the machine emits
at most `credit` items from a finite producer, decrementing credit per item;
when credit reaches zero it stops and awaits a request-n; a cancel halts
production permanently.  `emitted` records the indices emitted, in order. -/
structure StreamState where
  credit : Nat
  next : Nat
  total : Nat
  halted : Bool
  emitted : List Nat
  deriving DecidableEq, Repr

/-- Emit items while credit remains, the producer has items left, and the
stream has not been canceled; `fuel` structurally bounds the recursion (one
unit of credit is spent per emitted item, so `fuel = s.credit` is enough). -/
def drainAux : Nat → StreamState → StreamState
  | 0, s => s
  | fuel + 1, s =>
    if s.halted ∨ s.credit = 0 ∨ s.total ≤ s.next then s
    else drainAux fuel { s with
      credit := s.credit - 1
      next := s.next + 1
      emitted := s.emitted ++ [s.next] }

/-- Emit as many items as the current credit and the producer allow. -/
def drain (s : StreamState) : StreamState := drainAux s.credit s

/-- Events a live request-stream reacts to: a request-n frame granting `n` more
credit, or a cancel frame. -/
inductive StreamEvent where
  | requestN (n : Nat)
  | cancel
  deriving DecidableEq, Repr

/-- Modelled from the spec: apply one inbound event to the stream state.
Request-n increases credit and resumes emission; cancel halts the stream;
a halted stream ignores further credit. -/
def stepStream (s : StreamState) : StreamEvent → StreamState
  | .requestN n => if s.halted then s else drain { s with credit := s.credit + n }
  | .cancel => { s with halted := true }

/-- Modelled from the spec: a request-stream initiated with request-n credit
`credit` over a producer of `total` items emits immediately up to the granted
credit. -/
def initStream (credit total : Nat) : StreamState :=
  drain { credit := credit, next := 0, total := total, halted := false, emitted := [] }

/-- Modelled from the spec: the request-response lifecycle states
`Active` and the terminal states `Completed`, `Errored`, `Canceled`. -/
inductive RRState where
  | active
  | completed
  | errored
  | canceledState
  deriving DecidableEq, Repr

/-- Modelled from the spec: what the original caller of `request_response`
observes through its deferred result. -/
inductive CallerObs where
  | pending
  | gotResult
  | gotPeerError
  | gotCancellation
  deriving DecidableEq, Repr

/-- Modelled from the spec: the request-response interaction state machine
(`rsocket/rsocket.py` is not among the sources; only the test
`test_request_response_cancellation` is).  `handlerCancelled` records whether
the handler's underlying deferred result has observed cancellation. -/
structure RequestResponse where
  state : RRState
  handlerCancelled : Bool
  callerObs : CallerObs
  cancelFrameSent : Bool
  deriving DecidableEq, Repr

/-- Modelled from the spec: a freshly initiated request-response whose handler
has not yet completed: active, handler not cancelled, caller still pending. -/
def initRR : RequestResponse :=
  { state := .active, handlerCancelled := false, callerObs := .pending,
    cancelFrameSent := false }

/-- Events a pending request-response reacts to. -/
inductive RREvent where
  | handlerComplete
  | peerError
  | localCancel
  deriving DecidableEq, Repr

/-- Modelled from the spec: one transition of the request-response machine.
Local cancellation before completion cancels the handler's deferred result,
sends a cancel frame, and surfaces a cancellation condition to the caller;
terminal states absorb all further events. -/
def stepRR (s : RequestResponse) : RREvent → RequestResponse
  | .handlerComplete =>
      if s.state = .active then { s with state := .completed, callerObs := .gotResult } else s
  | .peerError =>
      if s.state = .active then { s with state := .errored, callerObs := .gotPeerError } else s
  | .localCancel =>
      if s.state = .active then
        { state := .canceledState, handlerCancelled := true,
          callerObs := .gotCancellation, cancelFrameSent := true }
      else s

/- Helper lemmas (shared). -/

/-- A halted stream state stays halted and emits nothing under any event. -/
theorem stepStream_halted (s : StreamState) (e : StreamEvent) (h : s.halted = true) :
    (stepStream s e).emitted = s.emitted ∧ (stepStream s e).halted = true := by
  cases e with
  | requestN n => simp [stepStream, h]
  | cancel => simp [stepStream]

/-- A halted stream emits nothing more under any sequence of further events. -/
theorem foldl_stepStream_halted (s : StreamState) (h : s.halted = true) :
    ∀ evs : List StreamEvent, (evs.foldl stepStream s).emitted = s.emitted := by
  intro evs
  induction evs generalizing s with
  | nil => rfl
  | cons e rest ih =>
      obtain ⟨he, hh⟩ := stepStream_halted s e h
      simp only [List.foldl_cons]
      rw [ih (stepStream s e) hh, he]

end RSocket

namespace RSocket

/-- Shared helper: a code outside both mapped sets yields an
`IllegalArgumentException` in either branch of `RuntimeExceptions.handle`. -/
theorem handle_unmapped_kind (s c : Nat) (m : String)
    (hc1 : c ∉ connectionCodes) (hc2 : c ∉ streamCodes) :
    (RuntimeExceptions.handle s c m).kind = .illegalArgument := by
  simp only [connectionCodes, streamCodes, List.mem_cons, List.not_mem_nil,
    or_false, not_or] at hc1 hc2
  obtain ⟨a1, a2, a3, a4⟩ := hc1
  obtain ⟨b1, b2, b3, b4⟩ := hc2
  by_cases hs : s = 0
  · subst hs
    simp [RuntimeExceptions.handle, a1, a2, a3, a4]
  · simp [RuntimeExceptions.handle, hs, b1, b2, b3, b4]

/- Claim theorems. -/

/-- C1: for every nonzero stream id, `RuntimeExceptions.handle` maps
APPLICATION_ERROR, REJECTED, CANCELED and INVALID to the correspondingly named
exception preserving `err_code` and `err_msg`, and every other code to an
`IllegalArgumentException`. -/
theorem handle_nonzero_stream (s c : Nat) (m : String) (hs : s ≠ 0) :
    (c = ErrorCode.APPLICATION_ERROR →
      RuntimeExceptions.handle s c m = ⟨.application, c, m⟩) ∧
    (c = ErrorCode.REJECTED →
      RuntimeExceptions.handle s c m = ⟨.rejected, c, m⟩) ∧
    (c = ErrorCode.CANCELED →
      RuntimeExceptions.handle s c m = ⟨.canceled, c, m⟩) ∧
    (c = ErrorCode.INVALID →
      RuntimeExceptions.handle s c m = ⟨.invalid, c, m⟩) ∧
    (c ∉ streamCodes → (RuntimeExceptions.handle s c m).kind = .illegalArgument) := by
  simp only [streamCodes, List.mem_cons, List.not_mem_nil, or_false, not_or]
  refine ⟨?_, ?_, ?_, ?_, ?_⟩ <;>
    · intro hc
      first
      | (subst hc
         simp [RuntimeExceptions.handle, hs, ErrorCode.APPLICATION_ERROR,
           ErrorCode.REJECTED, ErrorCode.CANCELED, ErrorCode.INVALID])
      | (obtain ⟨h1, h2, h3, h4⟩ := hc
         simp [RuntimeExceptions.handle, hs, h1, h2, h3, h4])

/-- Witness for C1 at concrete inputs. -/
theorem handle_nonzero_stream_witness :
    (5 : Nat) ≠ 0 ∧
    RuntimeExceptions.handle 5 ErrorCode.CANCELED "boom" =
      ⟨.canceled, ErrorCode.CANCELED, "boom"⟩ :=
  ⟨by decide, ((handle_nonzero_stream 5 ErrorCode.CANCELED "boom" (by decide)).2.2.1) rfl⟩

/-- C2: for stream id 0, `RuntimeExceptions.handle` maps INVALID_SETUP,
UNSUPPORTED_SETUP, REJECTED_SETUP and CONNECTION_ERROR to the matching
exception preserving `err_code` and `err_msg`, and every other code to an
`IllegalArgumentException`. -/
theorem handle_zero_stream (c : Nat) (m : String) :
    (c = ErrorCode.INVALID_SETUP →
      RuntimeExceptions.handle 0 c m = ⟨.invalidSetup, c, m⟩) ∧
    (c = ErrorCode.UNSUPPORTED_SETUP →
      RuntimeExceptions.handle 0 c m = ⟨.unsupportedSetup, c, m⟩) ∧
    (c = ErrorCode.REJECTED_SETUP →
      RuntimeExceptions.handle 0 c m = ⟨.rejectedSetup, c, m⟩) ∧
    (c = ErrorCode.CONNECTION_ERROR →
      RuntimeExceptions.handle 0 c m = ⟨.connectionError, c, m⟩) ∧
    (c ∉ connectionCodes → (RuntimeExceptions.handle 0 c m).kind = .illegalArgument) := by
  simp only [connectionCodes, List.mem_cons, List.not_mem_nil, or_false, not_or]
  refine ⟨?_, ?_, ?_, ?_, ?_⟩ <;>
    · intro hc
      first
      | (subst hc
         simp [RuntimeExceptions.handle, ErrorCode.INVALID_SETUP,
           ErrorCode.UNSUPPORTED_SETUP, ErrorCode.REJECTED_SETUP,
           ErrorCode.CONNECTION_ERROR])
      | (obtain ⟨h1, h2, h3, h4⟩ := hc
         simp [RuntimeExceptions.handle, h1, h2, h3, h4])

/-- Witness for C2 at concrete inputs. -/
theorem handle_zero_stream_witness :
    RuntimeExceptions.handle 0 ErrorCode.REJECTED_SETUP "no" =
      ⟨.rejectedSetup, ErrorCode.REJECTED_SETUP, "no"⟩ :=
  ((handle_zero_stream ErrorCode.REJECTED_SETUP "no").2.2.1) rfl

/-- C3: `verify_first_frame` fails with `InvalidSetupException` and the fixed
message "SETUP or RESUME is not a frame with stream id of 0" for every frame
with nonzero stream id, fails with `InvalidSetupException` and message
"first frame must be setup or resume" for every stream-id-0 frame that is not a
setup frame, and succeeds on every setup frame with stream id 0. -/
theorem verify_first_frame_spec (f : Frame) :
    (f.stream_id ≠ 0 →
      verify_first_frame f =
        .error ⟨.invalidSetup, ErrorCode.INVALID_SETUP, ERROR_INVALID_STREAM⟩) ∧
    (f.stream_id = 0 → f.frameType ≠ .setup →
      verify_first_frame f =
        .error ⟨.invalidSetup, ErrorCode.INVALID_SETUP, ERROR_INVALID_FIRST_FRAME⟩) ∧
    (f.stream_id = 0 → f.frameType = .setup → verify_first_frame f = .ok ()) := by
  refine ⟨?_, ?_, ?_⟩
  · intro h
    simp [verify_first_frame, h]
  · intro h0 ht
    simp [verify_first_frame, h0, ht]
  · intro h0 ht
    simp [verify_first_frame, h0, ht]

/-- Witness for C3 at concrete frames. -/
theorem verify_first_frame_spec_witness :
    ((5 : Nat) ≠ 0 ∧
      verify_first_frame ⟨5, .requestResponse⟩ =
        .error ⟨.invalidSetup, ErrorCode.INVALID_SETUP, ERROR_INVALID_STREAM⟩) ∧
    verify_first_frame ⟨0, .setup⟩ = .ok () :=
  ⟨⟨by decide, (verify_first_frame_spec ⟨5, .requestResponse⟩).1 (by decide)⟩,
   (verify_first_frame_spec ⟨0, .setup⟩).2.2 rfl rfl⟩

/-- C4 counterexample: a resume frame at stream id 0 does fail first-frame
validation, but the failure is an `InvalidSetupException` with message
"first frame must be setup or resume", not an `UnsupportedSetupException` with
message "unsupported resume yet". -/
theorem resume_first_frame_not_unsupported_setup :
    verify_first_frame ⟨0, .resume⟩ =
      .error ⟨.invalidSetup, ErrorCode.INVALID_SETUP, ERROR_INVALID_FIRST_FRAME⟩ ∧
    ExcKind.invalidSetup ≠ ExcKind.unsupportedSetup ∧
    ERROR_INVALID_FIRST_FRAME ≠ ERROR_UNSUPPORTED_RESUME :=
  ⟨rfl, by decide, by decide⟩

/-- C4 amended: a resume frame presented as the first frame fails first-frame
validation rather than being silently accepted, surfaced as
`InvalidSetupException` with message "first frame must be setup or resume";
the constant `ERROR_UNSUPPORTED_RESUME` ("unsupported resume yet") is defined
in `errors.py` but not used by `verify_first_frame`. -/
theorem resume_first_frame_rejected :
    verify_first_frame ⟨0, .resume⟩ =
      .error ⟨.invalidSetup, ErrorCode.INVALID_SETUP, ERROR_INVALID_FIRST_FRAME⟩ ∧
    verify_first_frame ⟨0, .resume⟩ ≠ .ok () ∧
    ERROR_UNSUPPORTED_RESUME = "unsupported resume yet" :=
  ⟨rfl, fun h => Except.noConfusion h, rfl⟩

/-- C5 counterexample: two distinct unmapped codes at the same nonzero stream
id produce `IllegalArgumentException`s with identical `err_msg`, so the
diagnostic message does not echo the offending error code (it interpolates the
stream id and the original message only). -/
theorem illegal_argument_message_ignores_code :
    (RuntimeExceptions.handle 5 768 "m").err_msg =
      (RuntimeExceptions.handle 5 1024 "m").err_msg ∧
    (768 : Nat) ≠ 1024 ∧
    (RuntimeExceptions.handle 5 768 "m").kind = .illegalArgument ∧
    (RuntimeExceptions.handle 5 1024 "m").kind = .illegalArgument ∧
    (RuntimeExceptions.handle 5 768 "m").err_msg =
      "Invalid Error frame in Stream ID 0: 5, \x27m\x27" := by
  refine ⟨rfl, by decide, rfl, rfl, rfl⟩

/-- C5 amended: for every stream id and code outside both mapped sets, the
returned `IllegalArgumentException` carries the offending code in `err_code`
and a diagnostic message that echoes the offending stream id and the original
message; the code itself is not interpolated into the message. -/
theorem handle_illegal_argument_diagnostic (s c : Nat) (m : String)
    (hc1 : c ∉ connectionCodes) (hc2 : c ∉ streamCodes) :
    (RuntimeExceptions.handle s c m).kind = .illegalArgument ∧
    (RuntimeExceptions.handle s c m).err_code = c ∧
    (RuntimeExceptions.handle s c m).err_msg = illegalArgumentMessage s m := by
  simp only [connectionCodes, streamCodes, List.mem_cons, List.not_mem_nil,
    or_false, not_or] at hc1 hc2
  obtain ⟨a1, a2, a3, a4⟩ := hc1
  obtain ⟨b1, b2, b3, b4⟩ := hc2
  by_cases hs : s = 0
  · subst hs
    simp [RuntimeExceptions.handle, a1, a2, a3, a4]
  · simp [RuntimeExceptions.handle, hs, b1, b2, b3, b4]

/-- Witness for C5 (amended) at concrete inputs. -/
theorem handle_illegal_argument_diagnostic_witness :
    (768 : Nat) ∉ connectionCodes ∧ (768 : Nat) ∉ streamCodes ∧
    (RuntimeExceptions.handle 9 768 "oops").err_code = 768 ∧
    (RuntimeExceptions.handle 9 768 "oops").err_msg = illegalArgumentMessage 9 "oops" :=
  ⟨by decide, by decide,
   (handle_illegal_argument_diagnostic 9 768 "oops" (by decide) (by decide)).2.1,
   (handle_illegal_argument_diagnostic 9 768 "oops" (by decide) (by decide)).2.2⟩

/-- C6: `RuntimeExceptions.handle` is total: every input yields a constructed
exception value whose class is one of the taxonomy members, and every code
outside both mapped sets degrades to `IllegalArgumentException` (the mapping
never fails; it constructs the value rather than raising it). -/
theorem handle_total (s c : Nat) (m : String) :
    (RuntimeExceptions.handle s c m).kind ∈
      [ExcKind.invalidSetup, ExcKind.unsupportedSetup, ExcKind.rejectedSetup,
       ExcKind.connectionError, ExcKind.illegalArgument, ExcKind.application,
       ExcKind.rejected, ExcKind.canceled, ExcKind.invalid] ∧
    (c ∉ connectionCodes → c ∉ streamCodes →
      (RuntimeExceptions.handle s c m).kind = .illegalArgument) := by
  constructor
  · simp only [RuntimeExceptions.handle]
    repeat' split
    all_goals simp
  · intro h1 h2
    exact handle_unmapped_kind s c m h1 h2

/-- Witness for C6 at concrete inputs. -/
theorem handle_total_witness :
    (2457 : Nat) ∉ connectionCodes ∧ (2457 : Nat) ∉ streamCodes ∧
    (RuntimeExceptions.handle 0 2457 "x").kind = .illegalArgument :=
  ⟨by decide, by decide, (handle_total 0 2457 "x").2 (by decide) (by decide)⟩

/-- C7: a request-stream initiated with credit 3 over an 8-item producer emits
exactly items 0-2 and then stalls with zero credit; a request-n of 2 releases
exactly items 3-4; a subsequent cancel halts emission permanently under every
further event sequence. -/
theorem request_stream_backpressure :
    (initStream 3 8).emitted = [0, 1, 2] ∧
    (initStream 3 8).credit = 0 ∧
    (stepStream (initStream 3 8) (.requestN 2)).emitted = [0, 1, 2, 3, 4] ∧
    ∀ evs : List StreamEvent,
      (List.foldl stepStream
        (stepStream (stepStream (initStream 3 8) (.requestN 2)) .cancel) evs).emitted =
        [0, 1, 2, 3, 4] := by
  refine ⟨by decide, by decide, by decide, ?_⟩
  intro evs
  rw [foldl_stepStream_halted _ (by decide) evs]
  decide

/-- C8: canceling a pending request-response before the handler completes
surfaces a cancellation condition to the caller (distinct from an ordinary
completion and from a peer-sent error) and cancels the handler's underlying
deferred result; before the cancel the handler's deferred result is not
cancelled. -/
theorem request_response_cancellation :
    initRR.handlerCancelled = false ∧
    initRR.callerObs = .pending ∧
    (stepRR initRR .localCancel).callerObs = .gotCancellation ∧
    (stepRR initRR .localCancel).handlerCancelled = true ∧
    CallerObs.gotCancellation ≠ CallerObs.gotResult ∧
    CallerObs.gotCancellation ≠ CallerObs.gotPeerError := by
  decide

/-- C9: for every nonzero stream id and code outside the stream-scope mapped
set, the returned `IllegalArgumentException`'s `err_msg` is the fixed label
"Invalid Error frame in Stream ID 0: " (naming stream id 0 regardless of the
real id) followed by the actual stream id and the quoted original message; the
original message is embedded in the wrapper, never preserved verbatim. -/
theorem handle_nonzero_unmapped_message (s c : Nat) (m : String)
    (hs : s ≠ 0) (hc : c ∉ streamCodes) :
    (RuntimeExceptions.handle s c m).kind = .illegalArgument ∧
    (RuntimeExceptions.handle s c m).err_msg =
      "Invalid Error frame in Stream ID 0: " ++ toString s ++ ", \x27" ++ m ++ "\x27" ∧
    (RuntimeExceptions.handle s c m).err_msg ≠ m := by
  simp only [streamCodes, List.mem_cons, List.not_mem_nil, or_false, not_or] at hc
  obtain ⟨b1, b2, b3, b4⟩ := hc
  have hmsg : (RuntimeExceptions.handle s c m).err_msg =
      "Invalid Error frame in Stream ID 0: " ++ toString s ++ ", \x27" ++ m ++ "\x27" := by
    simp [RuntimeExceptions.handle, hs, b1, b2, b3, b4, illegalArgumentMessage]
  refine ⟨?_, hmsg, ?_⟩
  · simp [RuntimeExceptions.handle, hs, b1, b2, b3, b4]
  · rw [hmsg]
    intro heq
    have hlen := congrArg String.length heq
    have hpre : ("Invalid Error frame in Stream ID 0: " : String).length = 36 := by decide
    have hmid : (", \x27" : String).length = 3 := by decide
    have hsuf : ("\x27" : String).length = 1 := by decide
    simp only [String.length_append, hpre, hmid, hsuf] at hlen
    omega

/-- Witness for C9 at concrete inputs. -/
theorem handle_nonzero_unmapped_message_witness :
    (5 : Nat) ≠ 0 ∧ (768 : Nat) ∉ streamCodes ∧
    (RuntimeExceptions.handle 5 768 "hello").err_msg =
      "Invalid Error frame in Stream ID 0: " ++ toString (5 : Nat) ++ ", \x27" ++
        "hello" ++ "\x27" :=
  ⟨by decide, by decide,
   (handle_nonzero_unmapped_message 5 768 "hello" (by decide) (by decide)).2.1⟩

/-- C10: `verify_first_frame` checks the stream id before the frame type: every
frame with nonzero stream id — a setup frame included — gets the
"SETUP or RESUME is not a frame with stream id of 0" error, and the
"first frame must be setup or resume" error can only be produced for a frame
whose stream id is 0. -/
theorem verify_first_frame_stream_id_checked_first (f : Frame) :
    (f.stream_id ≠ 0 →
      verify_first_frame f =
        .error ⟨.invalidSetup, ErrorCode.INVALID_SETUP, ERROR_INVALID_STREAM⟩) ∧
    (verify_first_frame f =
        .error ⟨.invalidSetup, ErrorCode.INVALID_SETUP, ERROR_INVALID_FIRST_FRAME⟩ →
      f.stream_id = 0) := by
  constructor
  · intro h
    simp [verify_first_frame, h]
  · intro h
    by_contra hnz
    have h1 : verify_first_frame f =
        .error ⟨.invalidSetup, ErrorCode.INVALID_SETUP, ERROR_INVALID_STREAM⟩ := by
      simp [verify_first_frame, hnz]
    rw [h1] at h
    have hmsgs := congrArg
      (fun x : Except CustomException Unit =>
        match x with
        | .error e => e.err_msg
        | .ok _ => "") h
    exact absurd hmsgs (by decide)

/-- Witness for C10: a setup frame with nonzero stream id gets the stream-id
error, not the frame-type error. -/
theorem verify_first_frame_stream_id_checked_first_witness :
    (7 : Nat) ≠ 0 ∧
    verify_first_frame ⟨7, .setup⟩ =
      .error ⟨.invalidSetup, ErrorCode.INVALID_SETUP, ERROR_INVALID_STREAM⟩ :=
  ⟨by decide, (verify_first_frame_stream_id_checked_first ⟨7, .setup⟩).1 (by decide)⟩

end RSocket
